import Mathlib

/-!
Verification of the table-recognition and extraction engine of the
NLP-Tokenizers repository (source file getImages.py) against its
natural-language specification.

The Python source is shallowly embedded: pure string and list processing is
translated to executable Lean functions; interactions with the browser
session (DOM queries, geometry, screenshots, HTTP downloads) are modelled by
record fields and oracle parameters that stand for the values those external
calls return during one extraction run.  Machine integers are modelled by
Nat and Int; pandas missing values (NaN) are modelled by the none case of
Option String.
-/

namespace GetImages

/-! ### Python string primitives

Executable models of the Python string operations the source uses:
str.strip, str.startswith, substring membership, str.replace, str.split,
whitespace collapsing, decimal rendering of integers, lexicographic string
comparison, str.title and the two re.sub based humanisation steps. -/

/-- Whitespace set of Python str.strip / str.split / regex \s (ASCII part). -/
def isPySpace (c : Char) : Bool :=
  c = ' ' || c = '\t' || c = '\n' || c = '\r' || c = '\x0b' || c = '\x0c'

/-- Model of Python str.strip(): drop leading and trailing whitespace. -/
def pyStrip (s : String) : String :=
  String.mk (((s.data.dropWhile isPySpace).reverse.dropWhile isPySpace).reverse)

/-- Model of Python str.startswith on code points. -/
def pyStartsWith (s p : String) : Bool :=
  p.data.isPrefixOf s.data

/-- Model of the Python membership test pat in s (substring containment). -/
def strContains (s pat : String) : Bool :=
  decide (pat.data <:+: s.data)

/-- Fuel-driven worker for str.replace: replaces every non-overlapping
occurrence of pat left to right.  The fuel is the input length, which
suffices because every step consumes at least one character. -/
def replaceFuel (pat rep : List Char) : Nat → List Char → List Char
  | 0, l => l
  | _ + 1, [] => []
  | fuel + 1, c :: t =>
    if pat.isPrefixOf (c :: t) && !pat.isEmpty then
      rep ++ replaceFuel pat rep fuel (List.drop (pat.length - 1) t)
    else
      c :: replaceFuel pat rep fuel t

/-- Model of Python str.replace(pat, rep). -/
def pyReplace (s pat rep : String) : String :=
  String.mk (replaceFuel pat.data rep.data s.data.length s.data)

/-- Worker for whitespace collapsing: maps every whitespace character to a
single space and merges adjacent spaces, the effect of re.sub(r"\s+", " "). -/
def collapseWsL (l : List Char) : List Char :=
  l.foldr
    (fun c acc =>
      let c2 := if isPySpace c then ' ' else c
      if c2 = ' ' && acc.headD 'x' = ' ' then acc else c2 :: acc)
    []

/-- Model of Python str.split() with no argument: split on whitespace runs,
discarding empty pieces. -/
def pySplitWs (s : String) : List String :=
  (s.split (fun c => isPySpace c)).filter (fun p => p ≠ "")

/-- Decimal digits of a natural number, most significant first (fueled so
that it reduces inside the kernel). -/
def natDigits : Nat → Nat → List Char
  | 0, _ => []
  | fuel + 1, n =>
    if n < 10 then [Nat.digitChar n]
    else natDigits fuel (n / 10) ++ [Nat.digitChar (n % 10)]

/-- Decimal rendering of a natural number, as Python str(n). -/
def natToDec (n : Nat) : String :=
  String.mk (natDigits (n + 1) n)

/-- Decimal rendering of an integer, as a Python f-string renders an int. -/
def intToDec : Int → String
  | Int.ofNat n => natToDec n
  | Int.negSucc n => "-" ++ natToDec (n + 1)

/-- Lexicographic strict comparison of character lists by code point,
the order Python uses to compare strings. -/
def strLtL : List Char → List Char → Bool
  | [], [] => false
  | [], _ :: _ => true
  | _ :: _, [] => false
  | a :: s, b :: t =>
    if a.toNat < b.toNat then true
    else if b.toNat < a.toNat then false
    else strLtL s t

/-- Model of the Python string order a <= b. -/
def pyStrLe (a b : String) : Bool :=
  strLtL a.data b.data || a.data == b.data

/-- Worker for re.sub(r"([a-z])([A-Z])", r"\1 \2"): insert a space between a
lowercase letter and an uppercase letter that follows it. -/
def camelSplitL : List Char → List Char
  | c1 :: c2 :: t =>
    if c1.isLower && c2.isUpper then c1 :: ' ' :: camelSplitL (c2 :: t)
    else c1 :: camelSplitL (c2 :: t)
  | l => l

/-- Humanisation used by the title fallbacks: camelCase split plus
replacement of underscores and hyphens by spaces. -/
def humanize (s : String) : String :=
  pyReplace (pyReplace (String.mk (camelSplitL s.data)) "_" " ") "-" " "

/-- Worker for Python str.title(): a letter is uppercased when the previous
character is not a letter, lowercased otherwise. -/
def pyTitleL : Bool → List Char → List Char
  | _, [] => []
  | prevAlpha, c :: t =>
    if c.isAlpha then
      (if prevAlpha then c.toLower else c.toUpper) :: pyTitleL true t
    else
      c :: pyTitleL false t

/-- Model of Python str.title(). -/
def pyTitle (s : String) : String :=
  String.mk (pyTitleL false s.data)

/-- Prefix of a character list up to (excluding) the first occurrence of sep,
the whole list when sep does not occur: Python s.split(sep)[0]. -/
def beforeFirstL (sep : List Char) : List Char → List Char
  | [] => []
  | c :: t =>
    if sep.isPrefixOf (c :: t) then []
    else c :: beforeFirstL sep t

/-- Model of Python s.split(sep)[0] for a non-empty separator. -/
def beforeFirst (s sep : String) : String :=
  String.mk (beforeFirstL sep.data s.data)

/-! ### Data frames (pandas model)

A pandas DataFrame is a rectangular grid: ordered column labels plus rows of
cells.  A cell is Option String, none standing for NaN. -/

/-- One table cell as pandas holds it: a string, or none for NaN. -/
abbrev Cell := Option String

/-- Model of a pandas DataFrame: column labels plus rows of cells. -/
structure DataFrame where
  headers : List String
  rows : List (List Cell)
deriving DecidableEq

/-- Whether a cell is pandas NaN. -/
def cellIsNa (c : Cell) : Bool := c.isNone

/-- Model of pandas df.empty: no rows or no columns. -/
def dfEmpty (df : DataFrame) : Bool :=
  df.rows.isEmpty || df.headers.isEmpty

/-- Width pandas infers for list-of-lists data: the maximum row length. -/
def rowsWidth (rows : List (List Cell)) : Nat :=
  (rows.map List.length).foldr max 0

/-- Pandas padding of a short data row: missing trailing values become NaN. -/
def padRow (w : Nat) (r : List Cell) : List Cell :=
  r ++ List.replicate (w - r.length) none

/-- Model of pd.DataFrame(rows, columns=cols) on list-of-lists data: pandas
pads shorter rows with NaN up to the inferred width and raises (modelled by
none) when that width differs from the number of column labels. -/
def pdDataFrame (cols : List String) (rows : List (List Cell)) : Option DataFrame :=
  if rowsWidth rows = cols.length then
    some ⟨cols, rows.map (padRow cols.length)⟩
  else none

/-- Keep the entries of a list selected by a Boolean mask (positional column
selection, as pandas boolean indexing on columns does). -/
def applyMask : List Bool → List α → List α
  | [], _ => []
  | _ :: _, [] => []
  | true :: m, a :: l => a :: applyMask m l
  | false :: m, _ :: l => applyMask m l

/-- Step 1 of clean_dataframe: df.dropna(how="all") removes the rows whose
cells are all NaN. -/
def dropAllNaRows (df : DataFrame) : DataFrame :=
  ⟨df.headers, df.rows.filter (fun r => !(r.all cellIsNa))⟩

/-- Column mask for df.dropna(axis=1, how="all"): a column survives when some
row holds a non-NaN value in it. -/
def colMask (df : DataFrame) : List Bool :=
  (List.range df.headers.length).map
    (fun j => df.rows.any (fun r => !(cellIsNa (r.getD j none))))

/-- Step 2 of clean_dataframe: df.dropna(axis=1, how="all") removes the
columns whose cells are all NaN. -/
def dropAllNaCols (df : DataFrame) : DataFrame :=
  ⟨applyMask (colMask df) df.headers, df.rows.map (applyMask (colMask df))⟩

/-- Step 3 of clean_dataframe: strip every column name. -/
def stripColNames (df : DataFrame) : DataFrame :=
  ⟨df.headers.map pyStrip, df.rows⟩

/-- Keep-first mask of df.columns.duplicated(): an entry survives when its
label has not appeared earlier. -/
def dupMask (seen : List String) : List String → List Bool
  | [] => []
  | h :: t => (!(seen.contains h)) :: dupMask (h :: seen) t

/-- Step 4 of clean_dataframe: df.loc[:, ~df.columns.duplicated()] keeps the
first column of every label. -/
def dedupCols (df : DataFrame) : DataFrame :=
  ⟨applyMask (dupMask [] df.headers) df.headers,
   df.rows.map (applyMask (dupMask [] df.headers))⟩

/-- Step 5 of clean_dataframe, per cell: str(x).strip() unless the value is a
string containing "<img" (NaN renders as the string "nan"). -/
def cleanCell : Cell → Cell
  | none => some "nan"
  | some s => if strContains s "<img" then some s else some (pyStrip s)

/-- Step 5 of clean_dataframe applied to every cell. -/
def cleanCells (df : DataFrame) : DataFrame :=
  ⟨df.headers, df.rows.map (fun r => r.map cleanCell)⟩

/-- Model of clean_dataframe (getImages.py, lines 1711-1737): drop all-NaN
rows, drop all-NaN columns, strip column names, drop duplicate column labels
keeping the first, then clean every cell. -/
def clean_dataframe (df : DataFrame) : DataFrame :=
  cleanCells (dedupCols (stripColNames (dropAllNaCols (dropAllNaRows df))))

/-- Synthesized generic headers "Column 1".."Column N". -/
def synthHeaders (n : Nat) : List String :=
  (List.range n).map (fun i => "Column " ++ natToDec (i + 1))

/-- Model of the DataFrame assembly inside extract_table_data (getImages.py,
lines 1674-1690): require some row and more than one column; when the
extracted headers match the first row in length build the frame from them
(pandas padding short rows with NaN, raising on longer ones), otherwise
synthesize "Column 1..N" headers and right-pad every row with empty strings;
finally clean the frame. -/
def buildDataFrame (headers : List String) (rows : List (List Cell)) : Option DataFrame :=
  if rows.isEmpty then none
  else if 1 < rowsWidth rows then
    if !headers.isEmpty && headers.length = (rows.headD []).length then
      (pdDataFrame headers rows).map clean_dataframe
    else
      some (clean_dataframe
        ⟨synthHeaders (rowsWidth rows),
         rows.map (fun r => r ++ List.replicate (rowsWidth rows - r.length) (some ""))⟩)
  else none

/-- The table dictionary extract_table_data returns on success. -/
structure TableData where
  title : String
  dataframe : DataFrame
  has_images : Bool
  container_type : String
deriving DecidableEq

/-- Model of the tail of extract_table_data (getImages.py, lines 1674-1705):
build and clean the DataFrame from the extracted headers and rows and return
a table dictionary only when the frame exists and is non-empty.  The title
and the image flag come from earlier, browser-dependent steps and are passed
in. -/
def extract_table_data (title : String) (ctype : String) (hasImgs : Bool)
    (headers : List String) (rows : List (List Cell)) : Option TableData :=
  match buildDataFrame headers rows with
  | none => none
  | some df => if dfEmpty df then none else some ⟨title, df, hasImgs, ctype⟩

/-! ### Native-table row extraction (extract_html_table_data)

The BeautifulSoup cell objects the row loop of extract_html_table_data
(getImages.py, lines 1939-1993) consumes are modelled by HtmlCell: the
parsed colspan attribute (none when the attribute is absent, empty, or not
an integer, each of which leaves the Python colspan at 1), the src and alt
of a contained img tag when one exists, and the text content. -/

/-- Model of clean_text (getImages.py, lines 550-570): collapse whitespace,
replace the common HTML entities, strip. -/
def clean_text (t : String) : String :=
  if t = "" then ""
  else
    pyStrip
      (pyReplace
        (pyReplace
          (pyReplace
            (pyReplace (String.mk (collapseWsL t.data)) "&nbsp;" " ")
            "&amp;" "&")
          "&lt;" "<")
        "&gt;" ">")

/-- A parsed td/th cell of a native HTML table. -/
structure HtmlCell where
  colspanAttr : Option Int
  imgSrc : Option String
  imgAlt : String
  text : String
deriving DecidableEq

/-- Effective colspan: the parsed attribute when present, else 1; Python
range(colspan) iterates zero times for non-positive values, hence toNat. -/
def cellColspan (c : HtmlCell) : Nat :=
  match c.colspanAttr with
  | some v => v.toNat
  | none => 1

/-- Protocol-relative fix applied to an img src inside the row loop. -/
def fixProtoRel (src : String) : String :=
  if pyStartsWith src "//" then "https:" ++ src else src

/-- The single value a cell contributes (before colspan repetition): the img
markup string when the cell holds an image with a non-empty src, else the
cleaned text. -/
def cellValue (c : HtmlCell) : String :=
  match c.imgSrc with
  | some rawSrc =>
    let src := fixProtoRel rawSrc
    if src = "" then clean_text c.text
    else
      "<img src=\"" ++ src ++ "\" alt=\"" ++ c.imgAlt ++
        "\" style=\"max-width:100px; max-height:100px;\">"
  | none => clean_text c.text

/-- Flattened row of a tr element: every cell contributes colspan repeated
copies of its value, in order. -/
def rowOfCells (cells : List HtmlCell) : List String :=
  cells.flatMap (fun c => List.replicate (cellColspan c) (cellValue c))

/-- Row filter at the end of the loop: keep a row only when it is non-empty
and some cell strips to non-blank. -/
def keepRow (row : List String) : Bool :=
  !row.isEmpty && row.any (fun s => !(pyStrip s).isEmpty)

/-- Model of the data-row loop of extract_html_table_data over the tr
elements that pass the header-row skip checks. -/
def extract_html_table_rows (trs : List (List HtmlCell)) : List (List String) :=
  (trs.map rowOfCells).filter keepRow

/-! ### Row homogeneity check (rows_have_similar_structure) -/

/-- A candidate row element, reduced to what the check reads from the DOM:
its number of child elements. -/
structure RowElem where
  childCount : Nat
deriving DecidableEq

/-- Largest frequency of any value in the list (Counter.most_common(1)). -/
def maxFreq (l : List Nat) : Nat :=
  (l.map (fun c => l.count c)).foldr max 0

/-- Model of rows_have_similar_structure (getImages.py, lines 1423-1469):
sample the first 5 rows; reject an empty sample and a sample in which every
row has at most one child; accept when at most two distinct child counts
appear or when the most frequent count covers at least 60 percent of the
sample (the comparison most_common >= len * 0.6 coincides with
10 * most_common >= 6 * len for every sample size up to 5). -/
def rows_have_similar_structure (rows : List RowElem) : Bool :=
  let childCounts := (rows.take 5).map (fun r => r.childCount)
  if childCounts.isEmpty then false
  else if (childCounts.foldr max 0) ≤ 1 then false
  else if childCounts.dedup.length ≤ 2 then true
  else if 6 * childCounts.length ≤ 10 * maxFreq childCounts then true
  else false

/-- The acceptance condition exactly as claim C4 words it (for comparison
with the source function): the most frequent child count covers at least 60
percent of the sample, or at most two distinct counts appear. -/
def similarStructureClaimC4 (rows : List RowElem) : Bool :=
  let childCounts := (rows.take 5).map (fun r => r.childCount)
  (6 * childCounts.length ≤ 10 * maxFreq childCounts) || childCounts.dedup.length ≤ 2

/-- The amended acceptance condition: additionally the sample must be
non-empty and contain a row with more than one child element. -/
def similarStructureAmendedC4 (rows : List RowElem) : Bool :=
  let childCounts := (rows.take 5).map (fun r => r.childCount)
  !childCounts.isEmpty && 1 < childCounts.foldr max 0 &&
    ((6 * childCounts.length ≤ 10 * maxFreq childCounts) || childCounts.dedup.length ≤ 2)

/-! ### Deduplication (deduplicate_tables)

A candidate container carries an element handle.  The element is modelled by
what the JavaScript comparison reads from the DOM: an identity, the
identities of its proper ancestors, and its bounding rectangle.  The 70
percent overlap threshold is modelled exactly as 10 * overlap > 7 * smaller
area on integer geometry. -/

/-- A bounding client rectangle. -/
structure Rect where
  left : Int
  top : Int
  right : Int
  bottom : Int
deriving DecidableEq

/-- A DOM element as the deduplication script sees it. -/
structure Elem where
  ident : Nat
  ancestors : List Nat
  rect : Rect
deriving DecidableEq

/-- Overlap area of two rectangles, clamped at zero per axis. -/
def overlapArea (r1 r2 : Rect) : Int :=
  max 0 (min r1.right r2.right - max r1.left r2.left) *
    max 0 (min r1.bottom r2.bottom - max r1.top r2.top)

/-- Area width * height of a rectangle. -/
def rectArea (r : Rect) : Int :=
  (r.right - r.left) * (r.bottom - r.top)

/-- Model of the in-page comparison script of deduplicate_tables: same
element, one an ancestor of the other, or overlap above 70 percent of the
smaller area. -/
def elemsAreSame (e1 e2 : Elem) : Bool :=
  e1.ident == e2.ident || e2.ancestors.contains e1.ident ||
    e1.ancestors.contains e2.ident ||
    decide (7 * min (rectArea e1.rect) (rectArea e2.rect)
      < 10 * overlapArea e1.rect e2.rect)

/-- A candidate container dictionary, with the page coordinates recorded at
discovery time (element.location). -/
structure Container where
  element : Elem
  ctype : String
  confidence : String
  has_rows : Nat
  x : Int
  y : Int
deriving DecidableEq

/-- Confidence ranks used by deduplication and sorting; unknown strings rank
as low (dict.get default 2). -/
def confRank (c : String) : Nat :=
  if c = "high" then 0 else if c = "medium" then 1 else 2

/-- The comparison skip of deduplicate_tables: do not compare an html_table
container (taken first) with a container of another type. -/
def typeSkip (c1 c2 : Container) : Bool :=
  c1.ctype = "html_table" && c2.ctype ≠ "html_table"

/-- Replacement test of deduplicate_tables: the second container wins on
strictly higher confidence, or on equal confidence with strictly more rows. -/
def betterThan (c1 c2 : Container) : Bool :=
  confRank c2.confidence < confRank c1.confidence ||
    (confRank c2.confidence == confRank c1.confidence &&
      c1.has_rows < c2.has_rows)

/-- Inner loop body of deduplicate_tables for fixed outer index i and outer
container c1: the accumulator holds the current result entry for i and the
skip set. -/
def dedupInnerStep (cs : List Container) (c1 : Container) (i : Nat)
    (acc : Container × List Nat) (j : Nat) : Container × List Nat :=
  if i = j || acc.2.contains j then acc
  else
    match cs.get? j with
    | none => acc
    | some c2 =>
      if typeSkip c1 c2 then acc
      else if elemsAreSame c1.element c2.element then
        (if betterThan c1 c2 then c2 else acc.1, j :: acc.2)
      else acc

/-- Outer loop body of deduplicate_tables: skip an index already marked as a
duplicate, otherwise append the entry the inner loop settles on and extend
the skip set. -/
def dedupOuterStep (cs : List Container)
    (acc : List Container × List Nat) (i : Nat) : List Container × List Nat :=
  if acc.2.contains i then acc
  else
    match cs.get? i with
    | none => acc
    | some c1 =>
      let inner := (List.range cs.length).foldl (dedupInnerStep cs c1 i) (c1, acc.2)
      (acc.1 ++ [inner.1], inner.2)

/-- Model of deduplicate_tables (getImages.py, lines 1534-1635). -/
def deduplicate_tables (cs : List Container) : List Container :=
  ((List.range cs.length).foldl (dedupOuterStep cs) ([], [])).1

/-! ### Ordering of candidates (get_all_tables, lines 1371-1385) -/

/-- The position string recorded at discovery: f-string x-y of the element
location. -/
def posString (c : Container) : String :=
  intToDec c.x ++ "-" ++ intToDec c.y

/-- The sort key comparison of get_all_tables: confidence rank first, then
the position string under the lexicographic string order Python uses. -/
def sortKeyLe (a b : Container) : Bool :=
  confRank a.confidence < confRank b.confidence ||
    (confRank a.confidence == confRank b.confidence &&
      pyStrLe (posString a) (posString b))

/-- Model of the final sorted(...) call of get_all_tables.  Python sorted is
a stable comparison sort; it is modelled by stable insertion sort on the
same key. -/
def sortContainers (cs : List Container) : List Container :=
  List.insertionSort (fun a b => sortKeyLe a b = true) cs

/-- Model of the tail of get_all_tables (getImages.py, lines 1371-1385):
deduplicate the discovered containers, then sort by confidence tier and
position string. -/
def get_all_tables (found : List Container) : List Container :=
  sortContainers (deduplicate_tables found)

/-- Geometric page-position order (document reading order: by y, then x) as
claim C6 reads "ordered by the candidate's page position" within a tier. -/
def tierThenPagePos (a b : Container) : Prop :=
  confRank a.confidence < confRank b.confidence ∨
    (confRank a.confidence = confRank b.confidence ∧
      (a.y < b.y ∨ (a.y = b.y ∧ a.x ≤ b.x)))

/-! ### Image URL resolution and the image pipeline (process_table_images) -/

/-- Whether a URL reference starts with an RFC 3986 scheme (letter followed
by letters, digits, plus, minus or dot, then a colon): such a reference is
absolute, so urljoin returns it unchanged. -/
def schemeRest : List Char → Bool
  | [] => false
  | c :: t =>
    if c = ':' then true
    else if c.isAlphanum || c = '+' || c = '-' || c = '.' then schemeRest t
    else false

/-- Whether a URL reference carries a scheme. -/
def hasScheme (u : String) : Bool :=
  match u.data with
  | [] => false
  | c :: t => c.isAlpha && schemeRest t

/-- Model of urllib.parse.urljoin for the calls reachable here: the base is
authority-only (scheme://netloc, no path) and the reference is either
absolute with its own scheme (returned unchanged) or a relative path
(resolved against the root of the base). -/
def urljoin (base u : String) : String :=
  if hasScheme u then u else base ++ "/" ++ u

/-- Model of the URL resolution of process_table_images (getImages.py,
lines 686-691): protocol-relative URLs get the https scheme, root-relative
URLs are concatenated onto the base URL, and any other reference that is not
http(s)-absolute is joined against the base URL. -/
def resolveImageUrl (baseUrl u : String) : String :=
  if pyStartsWith u "//" then "https:" ++ u
  else if pyStartsWith u "/" then baseUrl ++ u
  else if !(pyStartsWith u "http://") && !(pyStartsWith u "https://") then
    urljoin baseUrl u
  else u

/-- String value of a cell as Python str(row[col]) renders it: NaN becomes
the string "nan". -/
def cellStr : Cell → String
  | none => "nan"
  | some s => s

/-- Model of re.search(r"src=\x22([^\x22]+)\x22", s): leftmost occurrence of
the quoted src attribute with a non-empty value. -/
def srcCaptureL : List Char → Option (List Char)
  | [] => none
  | c :: t =>
    if ("src=\"".data).isPrefixOf (c :: t) then
      let rest := (c :: t).drop 5
      let cap := rest.takeWhile (fun ch => ch ≠ '"')
      if !cap.isEmpty && (rest.drop cap.length).headD ' ' = '"' then some cap
      else srcCaptureL t
    else srcCaptureL t

/-- The src URL the image pass extracts from a cell, when the cell contains
img markup and the src regex matches. -/
def cellImgUrl (c : Cell) : Option String :=
  if strContains (cellStr c) "<img src=" then
    (srcCaptureL (cellStr c).data).map String.mk
  else none

/-- Whether the image pass treats the cell as an image cell. -/
def isImgCell (c : Cell) : Bool :=
  (cellImgUrl c).isSome

/-- Per-cell step of process_table_images.  The fetch oracle maps the image
index and the resolved URL to the outcome of download_image: a success flag
together with the local path or the error message.  Returns the new cell,
the next image index, and whether this cell was processed. -/
def processCell (base : String) (fetch : Nat → String → Bool × String)
    (idx : Nat) (c : Cell) : Cell × Nat × Bool :=
  match cellImgUrl c with
  | some raw =>
    let u := resolveImageUrl base raw
    let r := fetch idx u
    (some (if r.1 then "Image: " ++ r.2
           else "Image URL: " ++ u ++ " (download failed: " ++ r.2 ++ ")"),
     idx + 1, true)
  | none => (c, idx, false)

/-- The image pass over one row of cells, threading the image index. -/
def processCellRow (base : String) (fetch : Nat → String → Bool × String) :
    Nat → List Cell → List Cell × Nat × Bool
  | idx, [] => ([], idx, false)
  | idx, c :: t =>
    let h := processCell base fetch idx c
    let r := processCellRow base fetch h.2.1 t
    (h.1 :: r.1, r.2.1, h.2.2 || r.2.2)

/-- The image pass over all rows, row-major as df.iterrows traverses. -/
def processCellRows (base : String) (fetch : Nat → String → Bool × String) :
    Nat → List (List Cell) → List (List Cell) × Nat × Bool
  | idx, [] => ([], idx, false)
  | idx, r :: t =>
    let h := processCellRow base fetch idx r
    let rest := processCellRows base fetch h.2.1 t
    (h.1 :: rest.1, rest.2.1, h.2.2 || rest.2.2)

/-- A table dictionary as process_table_images consumes it; the dataframe
key may be absent (none) and the localized variant starts absent. -/
structure PTable where
  title : String
  has_images : Bool
  dataframe : Option DataFrame
  dataframe_with_local_images : Option DataFrame
deriving DecidableEq

/-- Model of process_table_images (getImages.py, lines 637-722): without the
image flag or a dataframe the record is returned unchanged; otherwise every
image cell of a copy of the frame is rewritten to a success marker
"Image: path" or a failure marker carrying the resolved URL and the reason,
and the copy is stored under the derived key only when at least one cell was
processed.  The original dataframe is never written. -/
def process_table_images (base : String)
    (fetch : Nat → String → Bool × String) (t : PTable) : PTable :=
  if !t.has_images then t
  else
    match t.dataframe with
    | none => t
    | some df =>
      let r := processCellRows base fetch 1 df.rows
      if r.2.2 then
        { t with dataframe_with_local_images := some ⟨df.headers, r.1⟩ }
      else t

/-- Relation claim C8 asserts between an original cell and the corresponding
cell of the derived frame: an image cell ends up holding a local-path marker
or a failure marker with the reason; any other cell is unchanged. -/
def cellOutcomeC8 (orig new : Cell) : Prop :=
  (isImgCell orig = true →
    (∃ p, new = some ("Image: " ++ p)) ∨
      (∃ u r, new = some ("Image URL: " ++ u ++ " (download failed: " ++ r ++ ")"))) ∧
  (isImgCell orig = false → new = orig)

/-! ### Title resolution (get_table_title)

The element is modelled by what the resolution steps read from the page,
each field holding the value the corresponding DOM query returns (none when
the query finds nothing): the text of a caption child element, the values
the in-page script reads (caption text, aria-label, title attribute, the
first heading among up to three preceding siblings, the first heading before
the element inside its parent, the nearest heading above within 300 px, a
figcaption inside an enclosing figure), the id and class attributes, the
parent id, and the page title.  The final fallback embeds a fresh random
identifier (uuid4), modelled as an explicit argument. -/

structure ElementModel where
  captionEl : Option String
  jsCaption : Option String
  ariaLabel : Option String
  titleAttr : Option String
  prevHeading : Option String
  parentHeading : Option String
  nearHeading : Option String
  figCaption : Option String
  elemId : Option String
  elemClass : Option String
  parentId : Option String
  pageTitle : Option String
deriving DecidableEq

/-- Model of the in-page findTableHeading script (getImages.py,
lines 1760-1841). -/
def jsFindTableHeading (e : ElementModel) : String :=
  let cap := pyStrip (e.jsCaption.getD "")
  if cap ≠ "" then cap
  else if e.ariaLabel.getD "" ≠ "" then e.ariaLabel.getD ""
  else if e.titleAttr.getD "" ≠ "" then e.titleAttr.getD ""
  else
    match e.prevHeading with
    | some t => pyStrip t
    | none =>
      match e.parentHeading with
      | some t => pyStrip t
      | none =>
        match e.nearHeading with
        | some t => pyStrip t
        | none =>
          match e.figCaption with
          | some t => pyStrip t
          | none => ""

/-- Fallback from the element id (getImages.py, lines 1851-1856). -/
def idTitle (e : ElementModel) : Option String :=
  match e.elemId with
  | some i =>
    if i ≠ "" && !(pyStartsWith i "_") then
      some ("Table: " ++ pyTitle (humanize i))
    else none
  | none => none

/-- Fallback from a descriptive class (getImages.py, lines 1859-1866). -/
def classTitle (e : ElementModel) : Option String :=
  match e.elemClass with
  | some cls =>
    if cls ≠ "" && pyStrip cls ≠ "" then
      match (pySplitWs cls).filter
          (fun c => 3 < c.length && !(pyStartsWith c "_")) with
      | c0 :: _ => some ("Table: " ++ pyTitle (humanize c0))
      | [] => none
    else none
  | none => none

/-- Fallback from the parent id (getImages.py, lines 1869-1875). -/
def parentIdTitle (e : ElementModel) : Option String :=
  match e.parentId with
  | some p =>
    if p ≠ "" && !(pyStartsWith p "_") then
      some ("Table in " ++ pyTitle (humanize p))
    else none
  | none => none

/-- Fallback from the page title (getImages.py, lines 1881-1884): split at
the first " - " and " | " and strip. -/
def pageTitleStep (e : ElementModel) : Option String :=
  match e.pageTitle with
  | some pt =>
    if pt ≠ "" then
      some ("Table from " ++ pyStrip (beforeFirst (beforeFirst pt " - ") " | "))
    else none
  | none => none

/-- The deterministic part of get_table_title: every resolution step before
the random fallback, in source order.  A some result is the title one of the
steps returns. -/
def titleSteps (e : ElementModel) : Option String :=
  match e.captionEl with
  | some t => some (pyStrip t)
  | none =>
    let js := jsFindTableHeading e
    if js ≠ "" then some js
    else
      match idTitle e with
      | some t => some t
      | none =>
        match classTitle e with
        | some t => some t
        | none =>
          match parentIdTitle e with
          | some t => some t
          | none => pageTitleStep e

/-- Model of get_table_title (getImages.py, lines 1739-1889): the first
resolution step that fires, else the fallback "Data Table " followed by the
first four hex digits of a fresh uuid4, passed here as uuidHex4. -/
def get_table_title (e : ElementModel) (uuidHex4 : String) : String :=
  match titleSteps e with
  | some t => t
  | none => "Data Table " ++ uuidHex4

/-! ### Result assembly of screenshot_tables (lines 774-862)

One loop iteration per surviving container is modelled by an Outcome: the
values the browser-dependent checks return (element still connected,
displayed, element screenshot written), the extract_table_data result, the
confidence of the container, and the screenshot path.  The image pass
rewrites only the derived frame, so it is irrelevant to the size filter and
is left out of this model. -/

structure Outcome where
  stillConnected : Bool
  displayed : Bool
  screenshotOk : Bool
  tableData : Option TableData
  confidence : String
  screenshotFile : String

/-- Size filter of screenshot_tables (getImages.py, lines 828-832): drop a
table with at most one row and at most one column, and drop a table with at
most two rows and at most two columns when the candidate confidence is low. -/
def keepSize (df : DataFrame) (conf : String) : Bool :=
  !((df.rows.length ≤ 1 && df.headers.length ≤ 1) ||
    (df.rows.length ≤ 2 && df.headers.length ≤ 2 && conf = "low"))

/-- An entry of the list screenshot_tables returns.  The diagnostic
full-page entry carries no dataframe and full_page true. -/
structure ResultRecord where
  title : String
  dataframe : Option DataFrame
  screenshot : String
  full_page : Bool
deriving DecidableEq

/-- One loop iteration of screenshot_tables (getImages.py, lines 782-847):
the container contributes a record only when the element checks and the
screenshot succeed, extraction returns a table with at least one row, and
the size filter keeps it. -/
def processOutcome (o : Outcome) : Option ResultRecord :=
  if !o.stillConnected || !o.displayed || !o.screenshotOk then none
  else
    match o.tableData with
    | none => none
    | some td =>
      if 0 < td.dataframe.rows.length then
        if keepSize td.dataframe o.confidence then
          some ⟨td.title, some td.dataframe, o.screenshotFile, false⟩
        else none
      else none

/-- Model of the result assembly of screenshot_tables (getImages.py,
lines 782-862): process every surviving container; when nothing was
extracted, return instead a single diagnostic record pointing at the
full-page screenshot taken at the start of the run. -/
def screenshot_tables (outcomes : List Outcome)
    (domain fullPageFile : String) : List ResultRecord :=
  if (outcomes.filterMap processOutcome).isEmpty then
    [⟨"Full page - " ++ domain, none, fullPageFile, true⟩]
  else outcomes.filterMap processOutcome

/-- Decidability of the geometric page-position order, used to evaluate
concrete instances. -/
instance (a b : Container) : Decidable (tierThenPagePos a b) := by
  unfold tierThenPagePos
  infer_instance

/-! ## Shared lemmas -/

/-- A data frame is rectangular: every row has exactly as many cells as
there are column headers. -/
def Rectangular (df : DataFrame) : Prop :=
  ∀ r ∈ df.rows, r.length = df.headers.length

theorem applyMask_length_eq {α β : Type} :
    ∀ (m : List Bool) (l1 : List α) (l2 : List β), l1.length = l2.length →
      (applyMask m l1).length = (applyMask m l2).length := by
  intro m
  induction m with
  | nil => intro l1 l2 _; simp [applyMask]
  | cons b m ih =>
    intro l1 l2 h
    cases l1 with
    | nil =>
      cases l2 with
      | nil => simp [applyMask]
      | cons c t => simp at h
    | cons a s =>
      cases l2 with
      | nil => simp at h
      | cons c t =>
        simp only [List.length_cons, Nat.add_right_cancel_iff] at h
        cases b with
        | true => simpa [applyMask] using ih s t h
        | false => simpa [applyMask] using ih s t h

theorem rowsWidth_cons (a : List Cell) (t : List (List Cell)) :
    rowsWidth (a :: t) = max a.length (rowsWidth t) := rfl

theorem length_le_rowsWidth {rows : List (List Cell)} {r : List Cell}
    (hr : r ∈ rows) : r.length ≤ rowsWidth rows := by
  induction rows with
  | nil => cases hr
  | cons a t ih =>
    rcases List.mem_cons.mp hr with h | h
    · subst h
      rw [rowsWidth_cons]
      omega
    · have := ih h
      rw [rowsWidth_cons]
      omega

theorem pdDataFrame_rect {cols : List String} {rows : List (List Cell)}
    {df : DataFrame} (h : pdDataFrame cols rows = some df) : Rectangular df := by
  unfold pdDataFrame at h
  split at h
  case isTrue hw =>
    obtain rfl := Option.some.inj h
    intro r hr
    simp only [List.mem_map] at hr
    obtain ⟨r0, hr0, rfl⟩ := hr
    have hle : r0.length ≤ cols.length := hw ▸ length_le_rowsWidth hr0
    simp only [padRow, List.length_append, List.length_replicate]
    omega
  case isFalse => cases h

theorem dropAllNaRows_rect {df : DataFrame} (h : Rectangular df) :
    Rectangular (dropAllNaRows df) := by
  intro r hr
  exact h r (List.mem_filter.mp hr).1

theorem dropAllNaCols_rect {df : DataFrame} (h : Rectangular df) :
    Rectangular (dropAllNaCols df) := by
  intro r hr
  simp only [dropAllNaCols, List.mem_map] at hr
  obtain ⟨r0, hr0, rfl⟩ := hr
  exact applyMask_length_eq _ _ _ (h r0 hr0)

theorem stripColNames_rect {df : DataFrame} (h : Rectangular df) :
    Rectangular (stripColNames df) := by
  intro r hr
  simpa [stripColNames] using h r hr

theorem dedupCols_rect {df : DataFrame} (h : Rectangular df) :
    Rectangular (dedupCols df) := by
  intro r hr
  simp only [dedupCols, List.mem_map] at hr
  obtain ⟨r0, hr0, rfl⟩ := hr
  exact applyMask_length_eq _ _ _ (h r0 hr0)

theorem cleanCells_rect {df : DataFrame} (h : Rectangular df) :
    Rectangular (cleanCells df) := by
  intro r hr
  simp only [cleanCells, List.mem_map] at hr
  obtain ⟨r0, hr0, rfl⟩ := hr
  simpa [cleanCells] using h r0 hr0

theorem clean_dataframe_rect {df : DataFrame} (h : Rectangular df) :
    Rectangular (clean_dataframe df) :=
  cleanCells_rect (dedupCols_rect (stripColNames_rect
    (dropAllNaCols_rect (dropAllNaRows_rect h))))

theorem synthFrame_rect (rows : List (List Cell)) :
    Rectangular ⟨synthHeaders (rowsWidth rows),
      rows.map (fun r => r ++ List.replicate (rowsWidth rows - r.length) (some ""))⟩ := by
  intro r hr
  simp only [List.mem_map] at hr
  obtain ⟨r0, hr0, rfl⟩ := hr
  have hle := length_le_rowsWidth hr0
  simp only [synthHeaders, List.length_append, List.length_replicate,
    List.length_map, List.length_range]
  omega

theorem buildDataFrame_rect {headers : List String} {rows : List (List Cell)}
    {df : DataFrame} (h : buildDataFrame headers rows = some df) :
    Rectangular df := by
  unfold buildDataFrame at h
  split at h
  · cases h
  · split at h
    · split at h
      · obtain ⟨df0, h0, rfl⟩ := Option.map_eq_some'.mp h
        exact clean_dataframe_rect (pdDataFrame_rect h0)
      · obtain rfl := Option.some.inj h
        exact clean_dataframe_rect (synthFrame_rect rows)
    · cases h

/-! ## Claims -/

/-- C1: every table dictionary extract_table_data returns with a dataframe
is rectangular — every row of the built and cleaned frame has exactly as
many cells as there are column headers — and when the extracted headers do
not match the first row in length the frame is built from synthesized
headers "Column 1..N" with shorter rows right-padded by empty strings. -/
theorem c1_tableRecord_rectangular :
    (∀ (title ctype : String) (hi : Bool) (headers : List String)
       (rows : List (List Cell)) (td : TableData),
       extract_table_data title ctype hi headers rows = some td →
       ∀ r ∈ td.dataframe.rows, r.length = td.dataframe.headers.length) ∧
    (∀ (headers : List String) (rows : List (List Cell)),
       rows.isEmpty = false → 1 < rowsWidth rows →
       (!headers.isEmpty && headers.length = (rows.headD []).length) = false →
       buildDataFrame headers rows = some (clean_dataframe
         ⟨synthHeaders (rowsWidth rows),
          rows.map (fun r => r ++ List.replicate (rowsWidth rows - r.length) (some ""))⟩)) := by
  constructor
  · intro title ctype hi headers rows td h
    cases hb : buildDataFrame headers rows with
    | none => simp [extract_table_data, hb] at h
    | some df =>
      have h2 : (if dfEmpty df = true then none
          else some (⟨title, df, hi, ctype⟩ : TableData)) = some td := by
        simpa only [extract_table_data, hb] using h
      split at h2
      · cases h2
      · obtain rfl := Option.some.inj h2
        exact buildDataFrame_rect hb
  · intro headers rows h1 h2 h3
    unfold buildDataFrame
    rw [h1, if_neg (by decide), if_pos h2, h3, if_neg (by decide)]

/-- Concrete input for the C1 witness: a 2x2 native table. -/
def c1Td : TableData :=
  ⟨"T", ⟨["A", "B"], [[some "1", some "2"], [some "3", some "4"]]⟩,
    false, "html_table"⟩

/-- Witness for C1: the rectangularity theorem applied to a concrete
extraction. -/
theorem c1_tableRecord_rectangular_witness :
    ([some "1", some "2"] : List Cell).length = c1Td.dataframe.headers.length :=
  c1_tableRecord_rectangular.1 "T" "html_table" false ["A", "B"]
    [[some "1", some "2"], [some "3", some "4"]] c1Td (by rfl)
    [some "1", some "2"] (by decide)

/-- C2: when no candidate survives, screenshot_tables returns no record with
a dataframe; it returns, on the normal (non-error) path, exactly the single
diagnostic record pointing at the full-page screenshot. -/
theorem c2_empty_result_diagnostic (outcomes : List Outcome)
    (domain fullPageFile : String)
    (h : ∀ o ∈ outcomes, processOutcome o = none) :
    screenshot_tables outcomes domain fullPageFile =
      [⟨"Full page - " ++ domain, none, fullPageFile, true⟩] ∧
    (screenshot_tables outcomes domain fullPageFile).filter
      (fun r => r.dataframe.isSome) = [] ∧
    (screenshot_tables outcomes domain fullPageFile).filter
      (fun r => r.full_page) =
      [⟨"Full page - " ++ domain, none, fullPageFile, true⟩] := by
  have hfm : outcomes.filterMap processOutcome = [] := by
    rw [List.filterMap_eq_nil_iff]
    exact h
  have hmain : screenshot_tables outcomes domain fullPageFile =
      [⟨"Full page - " ++ domain, none, fullPageFile, true⟩] := by
    unfold screenshot_tables
    rw [hfm]
    rfl
  refine ⟨hmain, ?_, ?_⟩ <;> rw [hmain] <;> rfl

/-- One loop iteration whose container is not displayed, for the C2
witness. -/
def c2Outcome : Outcome := ⟨true, false, true, none, "low", "s.png"⟩

/-- Witness for C2: a concrete run in which the only container is skipped. -/
theorem c2_empty_result_diagnostic_witness :
    screenshot_tables [c2Outcome] "example_com" "full.png" =
      [⟨"Full page - example_com", none, "full.png", true⟩] :=
  (c2_empty_result_diagnostic [c2Outcome] "example_com" "full.png"
    (by intro o ho; rw [List.mem_singleton] at ho; subst ho; rfl)).1

/-- C4 counterexample: a sample of two rows with one child element each has
a single distinct child count, so the acceptance condition as the claim
words it accepts, but the source function rejects (every child count is at
most 1). -/
theorem c4_homogeneity_counterexample :
    rows_have_similar_structure [⟨1⟩, ⟨1⟩] = false ∧
      similarStructureClaimC4 [⟨1⟩, ⟨1⟩] = true := by
  constructor <;> rfl

/-- C4 amended: the homogeneity check accepts if and only if the sample (at
most the first 5 rows) is non-empty, some sampled row has more than one
child element, and the claimed condition holds — the most frequent
child-element count covers at least 60 percent of the sample or at most two
distinct counts appear. -/
theorem c4_homogeneity_amended (rows : List RowElem) :
    rows_have_similar_structure rows = similarStructureAmendedC4 rows := by
  unfold rows_have_similar_structure similarStructureAmendedC4
  dsimp only
  split_ifs with h1 h2 h3 h4 <;> simp_all

/-- C5: in native-table row extraction, a data cell whose colspan attribute
parsed to N contributes N repeated copies of its value to the flattened
row. -/
theorem c5_colspan_expansion (c : HtmlCell) (rest : List HtmlCell) (N : Nat)
    (h : c.colspanAttr = some (N : Int)) :
    rowOfCells (c :: rest) = List.replicate N (cellValue c) ++ rowOfCells rest := by
  simp [rowOfCells, cellColspan, h]

/-- A cell with colspan 3 and text X, for the C5 witness. -/
def c5CellX : HtmlCell := ⟨some 3, none, "", "X"⟩

/-- A plain cell with text Y, for the C5 witness. -/
def c5CellY : HtmlCell := ⟨none, none, "", "Y"⟩

/-- Witness for C5: the row of one cell with colspan 3 and text X followed
by a cell Y flattens to X, X, X, Y. -/
theorem c5_colspan_expansion_witness :
    rowOfCells [c5CellX, c5CellY] = ["X", "X", "X", "Y"] := by
  rw [c5_colspan_expansion c5CellX [c5CellY] 3 (by rfl)]
  rfl

/-- C7: before fetching, every image URL is resolved — protocol-relative
URLs get the explicit https scheme, root-relative URLs are joined onto the
base URL (the concrete example of the claim included), and any other
non-absolute URL is joined against the base URL. -/
theorem c7_url_resolution :
    (∀ base u : String, pyStartsWith u "//" = true →
       resolveImageUrl base u = "https:" ++ u) ∧
    (∀ base u : String, pyStartsWith u "//" = false → pyStartsWith u "/" = true →
       resolveImageUrl base u = base ++ u) ∧
    (∀ base u : String, pyStartsWith u "//" = false → pyStartsWith u "/" = false →
       pyStartsWith u "http://" = false → pyStartsWith u "https://" = false →
       resolveImageUrl base u = urljoin base u) ∧
    resolveImageUrl "https://example.com" "/img/a.png" =
      "https://example.com/img/a.png" := by
  refine ⟨?_, ?_, ?_, by rfl⟩
  · intro base u h
    simp [resolveImageUrl, h]
  · intro base u h1 h2
    simp [resolveImageUrl, h1, h2]
  · intro base u h1 h2 h3 h4
    simp [resolveImageUrl, h1, h2, h3, h4]

/-- Witness for C7: the root-relative example of the claim. -/
theorem c7_url_resolution_witness :
    resolveImageUrl "https://example.com" "/img/a.png" =
      "https://example.com" ++ "/img/a.png" :=
  c7_url_resolution.2.1 "https://example.com" "/img/a.png" (by rfl) (by rfl)

/-- C10: every record screenshot_tables returns with a dataframe has more
than one row or more than one column; an extracted table with at most one
row and at most one column is always dropped, and one with at most two rows
and at most two columns is dropped whenever the candidate confidence is
low. -/
theorem c10_size_floor :
    (∀ (outcomes : List Outcome) (domain fullPageFile : String)
       (r : ResultRecord) (df : DataFrame),
       r ∈ screenshot_tables outcomes domain fullPageFile →
       r.dataframe = some df →
       1 < df.rows.length ∨ 1 < df.headers.length) ∧
    (∀ (o : Outcome) (td : TableData), o.tableData = some td →
       td.dataframe.rows.length ≤ 1 → td.dataframe.headers.length ≤ 1 →
       processOutcome o = none) ∧
    (∀ (o : Outcome) (td : TableData), o.tableData = some td →
       o.confidence = "low" →
       td.dataframe.rows.length ≤ 2 → td.dataframe.headers.length ≤ 2 →
       processOutcome o = none) := by
  refine ⟨?_, ?_, ?_⟩
  · intro outcomes domain fullPageFile r df hr hdf
    unfold screenshot_tables at hr
    split at hr
    · rw [List.mem_singleton] at hr
      subst hr
      cases hdf
    · obtain ⟨o, _, hpo⟩ := List.mem_filterMap.mp hr
      unfold processOutcome at hpo
      split at hpo
      · cases hpo
      · split at hpo
        · cases hpo
        · rename_i td _
          split at hpo
          · split at hpo
            · rename_i hkeep
              obtain rfl := Option.some.inj hpo
              simp only at hdf
              obtain rfl := Option.some.inj hdf
              simp only [keepSize, Bool.not_eq_true', Bool.or_eq_false_iff,
                Bool.and_eq_false_iff, decide_eq_false_iff_not] at hkeep
              omega
            · cases hpo
          · cases hpo
  · intro o td htd hrow hcol
    have hks : keepSize td.dataframe o.confidence = false := by
      simp [keepSize, hrow, hcol]
    unfold processOutcome
    rw [htd]
    split
    · rfl
    · dsimp only
      rw [hks]
      simp
  · intro o td htd hconf hrow hcol
    have hks : keepSize td.dataframe o.confidence = false := by
      simp [keepSize, hconf, hrow, hcol]
    unfold processOutcome
    rw [htd]
    split
    · rfl
    · dsimp only
      rw [hks]
      simp

/-- A 1 by 1 extracted table, for the C10 witness. -/
def c10Td : TableData := ⟨"T", ⟨["A"], [[some "1"]]⟩, false, "html_table"⟩

/-- The loop iteration carrying the 1 by 1 table, for the C10 witness. -/
def c10Outcome : Outcome := ⟨true, true, true, some c10Td, "high", "s.png"⟩

/-- Witness for C10: a concrete 1 by 1 table is dropped. -/
theorem c10_size_floor_witness : processOutcome c10Outcome = none :=
  c10_size_floor.2.1 c10Outcome c10Td (by rfl) (by decide) (by decide)

/-- The native-table element of the C3 failing input. -/
def c3HtmlElem : Elem := ⟨0, [], ⟨0, 0, 100, 100⟩⟩

/-- A div-table element nested inside the native table and covering the same
region, for the C3 failing input. -/
def c3DivElem : Elem := ⟨1, [0], ⟨0, 0, 100, 100⟩⟩

/-- The native-table candidate of the C3 failing input. -/
def c3Html : Container := ⟨c3HtmlElem, "html_table", "high", 5, 0, 0⟩

/-- The div-table candidate of the C3 failing input. -/
def c3Div : Container := ⟨c3DivElem, "div_table", "medium", 4, 0, 0⟩

/-- C3 (code bug): the two candidates represent the same region, yet with
the native table listed first deduplicate_tables returns two entries — the
native-table container twice — because the type guard skips the comparison
in the html-first direction while the later div iteration still compares
back and overwrites its own slot with the native table.  With the div listed
first the function returns the single higher-confidence survivor the claim
describes. -/
theorem c3_dedup_failing_input :
    elemsAreSame c3HtmlElem c3DivElem = true ∧
    deduplicate_tables [c3Html, c3Div] = [c3Html, c3Html] ∧
    (deduplicate_tables [c3Html, c3Div]).length = 2 ∧
    deduplicate_tables [c3Div, c3Html] = [c3Html] := by
  refine ⟨by rfl, by rfl, by rfl, by rfl⟩

/-- C6 counterexample input: a same-tier candidate at x = 9, y = 0. -/
def c6A : Container := ⟨⟨10, [], ⟨9, 0, 59, 40⟩⟩, "html_table", "high", 3, 9, 0⟩

/-- C6 counterexample input: a same-tier candidate at x = 710, y = 0, far to
the right of the first. -/
def c6B : Container := ⟨⟨11, [], ⟨710, 0, 760, 40⟩⟩, "html_table", "high", 3, 710, 0⟩

/-- C6 counterexample: the sort key compares the discovery position strings
"9-0" and "710-0" lexicographically, so within one tier the candidate at
x = 710 comes before the candidate at x = 9 at the same height — the result
is not ordered by geometric page position. -/
theorem c6_order_counterexample :
    get_all_tables [c6A, c6B] = [c6B, c6A] ∧
    c6A.y = c6B.y ∧ c6A.x < c6B.x ∧
    ¬ List.Pairwise tierThenPagePos (get_all_tables [c6A, c6B]) := by
  exact ⟨by rfl, by rfl, by decide, by decide⟩

theorem strLtL_trans : ∀ (s t u : List Char),
    strLtL s t = true → strLtL t u = true → strLtL s u = true := by
  intro s
  induction s with
  | nil =>
    intro t u h1 h2
    cases t with
    | nil => exact h2
    | cons b t =>
      cases u with
      | nil => exact absurd h2 (by simp [strLtL])
      | cons c u => rfl
  | cons a s ih =>
    intro t u h1 h2
    cases t with
    | nil => exact absurd h1 (by simp [strLtL])
    | cons b t =>
      cases u with
      | nil => exact absurd h2 (by simp [strLtL])
      | cons c u =>
        simp only [strLtL] at h1 h2 ⊢
        rcases Nat.lt_trichotomy a.toNat b.toNat with hab | hab | hab
        · rcases Nat.lt_trichotomy b.toNat c.toNat with hbc | hbc | hbc
          · rw [if_pos (by omega : a.toNat < c.toNat)]
          · rw [if_pos (by omega : a.toNat < c.toNat)]
          · rw [if_neg (by omega), if_pos hbc] at h2
            cases h2
        · rw [if_neg (by omega), if_neg (by omega)] at h1
          rcases Nat.lt_trichotomy b.toNat c.toNat with hbc | hbc | hbc
          · rw [if_pos (by omega : a.toNat < c.toNat)]
          · rw [if_neg (by omega), if_neg (by omega)] at h2
            rw [if_neg (by omega), if_neg (by omega)]
            exact ih t u h1 h2
          · rw [if_neg (by omega), if_pos hbc] at h2
            cases h2
        · rw [if_neg (by omega), if_pos hab] at h1
          cases h1

theorem strLtL_total : ∀ (s t : List Char),
    strLtL s t = true ∨ strLtL t s = true ∨ s = t := by
  intro s
  induction s with
  | nil =>
    intro t
    cases t with
    | nil => right; right; rfl
    | cons b t => left; rfl
  | cons a s ih =>
    intro t
    cases t with
    | nil => right; left; rfl
    | cons b t =>
      rcases Nat.lt_trichotomy a.toNat b.toNat with hab | hab | hab
      · left
        simp only [strLtL]
        rw [if_pos hab]
      · rcases ih t with h | h | h
        · left
          simp only [strLtL]
          rw [if_neg (by omega), if_neg (by omega)]
          exact h
        · right; left
          simp only [strLtL]
          rw [if_neg (by omega), if_neg (by omega)]
          exact h
        · right; right
          have hc : a = b := Char.ext (UInt32.ext hab)
          rw [hc, h]
      · right; left
        simp only [strLtL]
        rw [if_pos hab]

theorem pyStrLe_total (a b : String) : pyStrLe a b = true ∨ pyStrLe b a = true := by
  unfold pyStrLe
  rcases strLtL_total a.data b.data with h | h | h
  · left; simp [h]
  · right; simp [h]
  · left; simp [h]

theorem pyStrLe_trans (a b c : String) (h1 : pyStrLe a b = true)
    (h2 : pyStrLe b c = true) : pyStrLe a c = true := by
  unfold pyStrLe at h1 h2 ⊢
  simp only [Bool.or_eq_true, beq_iff_eq] at h1 h2 ⊢
  rcases h1 with h1 | h1
  · rcases h2 with h2 | h2
    · left; exact strLtL_trans _ _ _ h1 h2
    · left; rw [← h2]; exact h1
  · rcases h2 with h2 | h2
    · left; rw [h1]; exact h2
    · right; rw [h1, h2]

theorem sortKeyLe_total (a b : Container) : sortKeyLe a b = true ∨ sortKeyLe b a = true := by
  unfold sortKeyLe
  rcases Nat.lt_trichotomy (confRank a.confidence) (confRank b.confidence) with h | h | h
  · left; simp [h]
  · rcases pyStrLe_total (posString a) (posString b) with hp | hp
    · left; simp [h, hp]
    · right; simp [h, hp]
  · right; simp [h]

theorem sortKeyLe_trans (a b c : Container) (h1 : sortKeyLe a b = true)
    (h2 : sortKeyLe b c = true) : sortKeyLe a c = true := by
  unfold sortKeyLe at h1 h2 ⊢
  simp only [Bool.or_eq_true, decide_eq_true_eq, Bool.and_eq_true, beq_iff_eq] at h1 h2 ⊢
  rcases h1 with h1 | ⟨h1e, h1p⟩
  · rcases h2 with h2 | ⟨h2e, h2p⟩
    · left; omega
    · left; omega
  · rcases h2 with h2 | ⟨h2e, h2p⟩
    · left; omega
    · right
      exact ⟨by omega, pyStrLe_trans _ _ _ h1p h2p⟩

/-- C6 amended: the candidate list get_all_tables returns is sorted by the
key Python actually compares — confidence rank first, so every high entry
precedes every medium entry precedes every low entry, then the discovery
position string x-y under the lexicographic string order, which can disagree
with geometric page position when coordinates differ in digit count. -/
theorem c6_order_amended (found : List Container) :
    List.Pairwise (fun a b => sortKeyLe a b = true) (get_all_tables found) := by
  haveI : IsTotal Container (fun a b => sortKeyLe a b = true) :=
    ⟨fun a b => sortKeyLe_total a b⟩
  haveI : IsTrans Container (fun a b => sortKeyLe a b = true) :=
    ⟨fun a b c h1 h2 => sortKeyLe_trans a b c h1 h2⟩
  exact List.sorted_insertionSort _ _

theorem processCell_outcome (base : String) (fetch : Nat → String → Bool × String)
    (idx : Nat) (c : Cell) : cellOutcomeC8 c (processCell base fetch idx c).1 := by
  unfold processCell cellOutcomeC8 isImgCell
  cases h : cellImgUrl c with
  | none => simp [h]
  | some raw =>
    simp only [h, Option.isSome_some]
    constructor
    · intro _
      cases hf : (fetch idx (resolveImageUrl base raw)).1
      · right
        exact ⟨resolveImageUrl base raw, (fetch idx (resolveImageUrl base raw)).2,
          by simp [hf]⟩
      · left
        exact ⟨(fetch idx (resolveImageUrl base raw)).2, by simp [hf]⟩
    · intro hfalse
      cases hfalse

theorem processCellRow_outcome (base : String) (fetch : Nat → String → Bool × String) :
    ∀ (cells : List Cell) (idx : Nat),
      List.Forall₂ cellOutcomeC8 cells (processCellRow base fetch idx cells).1 := by
  intro cells
  induction cells with
  | nil => intro idx; exact List.Forall₂.nil
  | cons c t ih =>
    intro idx
    exact List.Forall₂.cons (processCell_outcome base fetch idx c)
      (ih (processCell base fetch idx c).2.1)

theorem processCellRows_outcome (base : String) (fetch : Nat → String → Bool × String) :
    ∀ (rws : List (List Cell)) (idx : Nat),
      List.Forall₂ (List.Forall₂ cellOutcomeC8) rws
        (processCellRows base fetch idx rws).1 := by
  intro rws
  induction rws with
  | nil => intro idx; exact List.Forall₂.nil
  | cons r t ih =>
    intro idx
    exact List.Forall₂.cons (processCellRow_outcome base fetch r idx)
      (ih (processCellRow base fetch idx r).2.1)

/-- C8: process_table_images never writes the original record — title, image
flag and the dataframe field are unchanged — and when it produces the
derived frame, that frame keeps the headers and relates to the original
cell by cell: every image cell ends up holding a local-path marker or a
failure marker carrying the reason, and every other cell is untouched. -/
theorem c8_image_pipeline (base : String) (fetch : Nat → String → Bool × String)
    (t : PTable) :
    (process_table_images base fetch t).title = t.title ∧
    (process_table_images base fetch t).has_images = t.has_images ∧
    (process_table_images base fetch t).dataframe = t.dataframe ∧
    (∀ df dfl, t.dataframe = some df →
      t.dataframe_with_local_images = none →
      (process_table_images base fetch t).dataframe_with_local_images = some dfl →
      dfl.headers = df.headers ∧
      List.Forall₂ (List.Forall₂ cellOutcomeC8) df.rows dfl.rows) := by
  cases hhi : t.has_images with
  | false =>
    have hres : process_table_images base fetch t = t := by
      unfold process_table_images
      rw [hhi]
      rfl
    refine ⟨by rw [hres], by rw [hres]; exact hhi, by rw [hres], ?_⟩
    intro df dfl hdf hnone hder
    rw [hres, hnone] at hder
    cases hder
  | true =>
    cases hdf0 : t.dataframe with
    | none =>
      have hres : process_table_images base fetch t = t := by
        unfold process_table_images
        rw [hhi, hdf0]
        rfl
      refine ⟨by rw [hres], by rw [hres]; exact hhi, by rw [hres]; exact hdf0, ?_⟩
      intro df dfl hdf hnone hder
      rw [hres, hnone] at hder
      cases hder
    | some df0 =>
      by_cases hp : (processCellRows base fetch 1 df0.rows).2.2 = true
      · have hres : process_table_images base fetch t =
            { t with
                dataframe_with_local_images := some
                  (DataFrame.mk df0.headers (processCellRows base fetch 1 df0.rows).1) } := by
          unfold process_table_images
          rw [hhi, hdf0]
          rw [if_neg (by simp)]
          dsimp only
          rw [if_pos hp]
        refine ⟨by rw [hres], by rw [hres]; exact hhi, by rw [hres]; exact hdf0, ?_⟩
        intro df dfl hdf hnone hder
        rw [hres] at hder
        obtain rfl := Option.some.inj hder
        obtain rfl := Option.some.inj hdf
        exact ⟨rfl, processCellRows_outcome base fetch df0.rows 1⟩
      · have hres : process_table_images base fetch t = t := by
          unfold process_table_images
          rw [hhi, hdf0]
          rw [if_neg (by simp)]
          dsimp only
          rw [if_neg hp]
        refine ⟨by rw [hres], by rw [hres]; exact hhi, by rw [hres]; exact hdf0, ?_⟩
        intro df dfl hdf hnone hder
        rw [hres, hnone] at hder
        cases hder

/-- The concrete table of the C8 witness: one image cell and one text
cell. -/
def c8Table : PTable :=
  ⟨"T", true,
    some ⟨["A", "B"],
      [[some "<img src=\"/img/a.png\" alt=\"x\" style=\"max-width:100px; max-height:100px;\">",
        some "txt"]]⟩,
    none⟩

/-- The fetch oracle of the C8 witness: every download succeeds with a fixed
local path. -/
def c8Fetch : Nat → String → Bool × String := fun _ _ => (true, "local/a.png")

/-- Witness for C8: the frame-effect theorem applied to the concrete table
and fetch oracle. -/
theorem c8_image_pipeline_witness :
    (process_table_images "https://example.com" c8Fetch c8Table).dataframe =
      c8Table.dataframe ∧
    List.Forall₂ (List.Forall₂ cellOutcomeC8)
      (DataFrame.mk ["A", "B"]
        [[some "<img src=\"/img/a.png\" alt=\"x\" style=\"max-width:100px; max-height:100px;\">",
          some "txt"]]).rows
      (DataFrame.mk ["A", "B"] [[some "Image: local/a.png", some "txt"]]).rows :=
  ⟨(c8_image_pipeline "https://example.com" c8Fetch c8Table).2.2.1,
   ((c8_image_pipeline "https://example.com" c8Fetch c8Table).2.2.2
      (DataFrame.mk ["A", "B"]
        [[some "<img src=\"/img/a.png\" alt=\"x\" style=\"max-width:100px; max-height:100px;\">",
          some "txt"]])
      (DataFrame.mk ["A", "B"] [[some "Image: local/a.png", some "txt"]])
      (by rfl) (by rfl) (by rfl)).2⟩

/-- The element of the C9 counterexample: every title source is absent. -/
def c9Blank : ElementModel :=
  ⟨none, none, none, none, none, none, none, none, none, none, none, none⟩

/-- C9 counterexample: on an element with no deterministic title source the
resolved title embeds the fresh random identifier uuid4().hex[:4], so two
runs of get_table_title over the same unchanged snapshot return different
titles. -/
theorem c9_title_counterexample :
    get_table_title c9Blank "abcd" ≠ get_table_title c9Blank "ef01" := by
  decide

/-- C9 amended: extraction of headers and rows is a pure function of the
snapshot, and whenever any deterministic title-resolution step fires —
caption, aria label, title attribute, nearby heading, id or class
humanisation, or page title — get_table_title returns that same title on
both runs; only the final fallback embeds a fresh random identifier. -/
theorem c9_title_amended (e : ElementModel) (u1 u2 : String) (s : String)
    (h : titleSteps e = some s) :
    get_table_title e u1 = get_table_title e u2 ∧ get_table_title e u1 = s := by
  unfold get_table_title
  rw [h]
  exact ⟨rfl, rfl⟩

/-- The element of the C9 witness: a caption is present. -/
def c9Caption : ElementModel :=
  ⟨some " My Table ", none, none, none, none, none, none, none, none, none, none, none⟩

/-- Witness for C9 amended: with a caption present, two runs with different
random identifiers agree on the title. -/
theorem c9_title_amended_witness :
    get_table_title c9Caption "abcd" = get_table_title c9Caption "ef01" ∧
      get_table_title c9Caption "abcd" = "My Table" :=
  c9_title_amended c9Caption "abcd" "ef01" "My Table" (by rfl)

end GetImages
